import Mathlib

set_option maxRecDepth 100000

/-!
Shallow embedding of `run_deep_research.py`: a script that submits one research
query to two provider APIs (Perplexity, synchronous HTTP; Gemini, poll-based),
writes per-provider artifacts, and prints a summary.  External effects are
modelled explicitly: decoded JSON bodies are a `Json` value, the Gemini status
fetches are an oracle `Nat → Interaction`, wall-clock readings and timestamps
are oracles/parameters, and each pipeline returns a trace of prints, file
writes and sleeps together with its Python return value (or the exception that
escaped it).  The poll loop is fuel-indexed: `running` marks fuel exhaustion.
-/

namespace DeepResearch

/-- Python values decoded from JSON, as returned by `response.json()` and as
consumed by `json.dump`.  Numbers are modelled as integers (all values the
script touches are token counts). -/
inductive Json where
  | null : Json
  | bool : Bool → Json
  | num : Int → Json
  | str : String → Json
  | arr : List Json → Json
  | obj : List (String × Json) → Json

mutual

/-- Python `repr` rendering of a decoded value (quote-escaping inside strings
is not reproduced; the script never feeds container values to its f-strings
on the paths verified here). -/
def pyRepr : Json → String
  | .null => "None"
  | .bool b => if b then "True" else "False"
  | .num n => toString n
  | .str s => "\x27" ++ s ++ "\x27"
  | .arr xs => "[" ++ String.intercalate (", ") (pyReprList xs) ++ "]"
  | .obj kvs => "\x7b" ++ String.intercalate (", ") (pyReprPairs kvs) ++ "\x7d"

/-- Renders every element of a list with `pyRepr`. -/
def pyReprList : List Json → List String
  | [] => []
  | x :: xs => pyRepr x :: pyReprList xs

/-- Renders every key/value pair of a dict with `pyRepr`. -/
def pyReprPairs : List (String × Json) → List String
  | [] => []
  | p :: ps => ("\x27" ++ p.1 ++ "\x27: " ++ pyRepr p.2) :: pyReprPairs ps

end

/-- Python `str` rendering, as used by f-string interpolation. -/
def pyStr : Json → String
  | .null => "None"
  | .bool b => if b then "True" else "False"
  | .num n => toString n
  | .str s => s
  | .arr xs => pyRepr (.arr xs)
  | .obj kvs => pyRepr (.obj kvs)

/-- Python truthiness of a decoded value. -/
def pyTruthy : Json → Bool
  | .null => false
  | .bool b => b
  | .num n => n != 0
  | .str s => !s.isEmpty
  | .arr xs => !xs.isEmpty
  | .obj kvs => !kvs.isEmpty

/-- Python `d.get(k, default)`.  `none` models a raised exception: `.get` is
only available on dicts. -/
def pyDictGet (j : Json) (k : String) (d : Json) : Option Json :=
  match j with
  | .obj kvs => some ((kvs.lookup k).getD d)
  | _ => none

/-- Python `xs[0]`.  `none` models a raised exception (`IndexError` on an
empty list, a type error otherwise; on the one call site the script follows
`[0]` with `.get`, which raises on every non-dict result as well). -/
def pyIndex0 (j : Json) : Option Json :=
  match j with
  | .arr (x :: _) => some x
  | _ => none

/-- Python iteration over a value (`for x in v`): lists yield elements,
strings yield one-character strings, dicts yield their keys; `none` models the
`TypeError` raised on non-iterable values. -/
def pyIter (j : Json) : Option (List Json) :=
  match j with
  | .arr xs => some xs
  | .str s => some (s.toList.map (fun c => .str (String.mk [c])))
  | .obj kvs => some (kvs.map (fun p => Json.str p.1))
  | _ => none

/-- Python `s * n` on strings (used for the `"="*60` banner rules). -/
def strMul (s : String) (n : Nat) : String :=
  String.join (List.replicate n s)

/-- The fixed research prompt (`RESEARCH_QUERY` in the script). -/
def RESEARCH_QUERY : String :=
  "As of today, produce a fully-cited, primary-source-backed comparison of current AI regulation and enforcement across EU, US, UK, and Canada: include a table with (1) legal instrument name, (2) status, (3) scope, (4) key obligations, (5) effective dates / phase-in timeline, (6) penalties, (7) enforcement agencies + at least 3 concrete enforcement actions or official notices where applicable; then add a \x27What changed in the last 90 days\x27 section and a \x27Conflicts/uncertainties\x27 section listing claims that differ across sources and how you resolved them (or couldn\x27t)."

/-- Content written to a file: either `json.dump` of a value or plain text. -/
inductive ArtifactContent where
  | jsonDump : Json → ArtifactContent
  | text : String → ArtifactContent

/-- Observable trace of one pipeline (or of the whole driver): console prints
in order, file writes (path under `research_results/`, content), sleep
durations in seconds, and the number of status fetches issued. -/
structure Trace where
  prints : List String
  writes : List (String × ArtifactContent)
  sleeps : List Nat
  fetches : Nat

/-- The empty trace. -/
def emptyTrace : Trace :=
  { prints := [], writes := [], sleeps := [], fetches := 0 }

/-- A trace consisting only of console prints. -/
def printsTrace (ps : List String) : Trace :=
  { prints := ps, writes := [], sleeps := [], fetches := 0 }

/-- Concatenation of traces, in execution order. -/
def Trace.app (a b : Trace) : Trace :=
  { prints := a.prints ++ b.prints, writes := a.writes ++ b.writes,
    sleeps := a.sleeps ++ b.sleeps, fetches := a.fetches + b.fetches }

/-- Result of running a pipeline function (or `main`): a normal return with
the Python return value, an exception escaping the function, or — for the
fuel-indexed poll loop — fuel exhaustion while the loop is still going. -/
inductive RunOutcome (α : Type) where
  | ok : Trace → Option α → RunOutcome α
  | raised : Trace → String → RunOutcome α
  | running : Trace → RunOutcome α

/-- Whether the run returned normally. -/
def RunOutcome.isOk {α : Type} : RunOutcome α → Bool
  | .ok _ _ => true
  | _ => false

/-- Whether an exception escaped the run. -/
def RunOutcome.isRaised {α : Type} : RunOutcome α → Bool
  | .raised _ _ => true
  | _ => false

/-- Whether the run exhausted its fuel inside the poll loop. -/
def RunOutcome.isRunning {α : Type} : RunOutcome α → Bool
  | .running _ => true
  | _ => false

/-- Outcome of the single blocking HTTP call of the Perplexity pipeline:
either a 2xx response whose JSON body decoded to `body`, or a network-layer /
non-2xx failure (`requests.exceptions.RequestException`) carrying the printed
error message and, when a response object is attached, its raw text. -/
inductive HttpOutcome where
  | success : (body : Json) → HttpOutcome
  | failure : (message : String) → (responseText : Option String) → HttpOutcome

/-- Outcome of the lazy `google-genai` import at the top of the Gemini
pipeline: already importable, installed on demand and then importable, or the
`pip install` subprocess failed (`subprocess.run(..., check=True)` raises and
nothing catches it). -/
inductive ImportOutcome where
  | available : ImportOutcome
  | installedOk : ImportOutcome
  | installFailed : (err : String) → ImportOutcome

/-- Whether the on-demand dependency install failed. -/
def ImportOutcome.isInstallFailed : ImportOutcome → Bool
  | .installFailed _ => true
  | _ => false

/-- One element of `interaction.outputs`: its `text` and its optional `type`
attribute (`getattr(o, ...)` with default `None`). -/
structure GOutput where
  text : String
  otype : Option Json

/-- The `usage` object attached to a Gemini interaction; each field is
`none` when `getattr` would fall back to its default. -/
structure GUsage where
  prompt_tokens : Option Json
  completion_tokens : Option Json
  total_tokens : Option Json

/-- A Gemini interaction handle as returned by `client.interactions.create`
and `client.interactions.get`: identifier, status string, optional outputs
sequence, provider-supplied error detail, and optional usage object
(`none` covers both a missing and a `None`/falsy `usage` attribute). -/
structure Interaction where
  id : String
  status : String
  outputs : Option (List GOutput)
  error : String
  usage : Option GUsage

/-- Whether a status is terminal for the poll loop. -/
def terminal (i : Interaction) : Bool :=
  i.status == "completed" || i.status == "failed"

/-- Python `interaction.outputs[-1].text if interaction.outputs else ""`. -/
def final_text : Option (List GOutput) → String
  | some (x :: xs) => (xs.getLastD x).text
  | _ => ""

/-- Python `getattr(getattr(interaction, "usage", {}), field, d)`. -/
def gusageGet (u : Option GUsage) (field : GUsage → Option Json) (d : Json) : Json :=
  match u with
  | none => d
  | some g => (field g).getD d

/-- Whether a credential environment variable counts as present
(`if not KEY` in the script: unset and empty string are both falsy). -/
def credPresent : Option String → Bool
  | none => false
  | some s => !s.isEmpty

/-- Banner and progress prints issued by `run_perplexity_research` before the
HTTP call (lines 27-29 and 55-56 of the script). -/
def perplexity_intro : List String :=
  ["\n" ++ strMul ("=") 60,
   "PERPLEXITY SONAR DEEP RESEARCH",
   strMul ("=") 60,
   "Starting Perplexity deep research...",
   "Query: " ++ RESEARCH_QUERY.take 100 ++ "..."]

/-- Extraction of the report content (line 65):
`result.get("choices", [{}])[0].get("message", {}).get("content", "")`.
`none` models a raised exception. -/
def extract_content (result : Json) : Option Json := do
  let choices ← pyDictGet result ("choices") (.arr [.obj []])
  let first ← pyIndex0 choices
  let message ← pyDictGet first ("message") (.obj [])
  pyDictGet message ("content") (.str (""))

/-- Header of `perplexity_report.md` up to the report body (line 83). -/
def perplexity_header (ts : String) : String :=
  "# Perplexity Deep Research Report\n## AI Regulation Comparison (EU, US, UK, Canada)\n\n*Generated: " ++ ts ++ "*\n\n---\n\n"

/-- Separator between the report body and the numbered source list. -/
def perplexity_sources_header : String :=
  "\n\n---\n\n## Sources\n\n"

/-- The numbered source list built by the `for i, source in
enumerate(search_results, 1)` loop (lines 97-98); `none` models the exception
raised when an element has no `.get` (is not a dict). -/
def source_lines : Nat → List Json → Option String
  | _, [] => some ("")
  | i, s :: rest => do
    let t ← pyDictGet s ("title") (.str ("Untitled"))
    let u ← pyDictGet s ("url") (.str (""))
    let restText ← source_lines (i + 1) rest
    pure (toString i ++ ". [" ++ pyStr t ++ "](" ++ pyStr u ++ ")\n" ++ restText)

/-- The Perplexity pipeline (`run_perplexity_research`), as a function of the
`strftime` timestamp and the outcome of the HTTP call.  Return value `none`
is the Python `None` ("no result"); `.raised` marks the exceptions that the
`except requests.exceptions.RequestException` clause does not catch. -/
def run_perplexity_research (ts : String) (outcome : HttpOutcome) : RunOutcome Json :=
  match outcome with
  | .failure msg body =>
    .ok { prints := perplexity_intro ++
            (["✗ Perplexity API error: " ++ msg] ++
             (match body with
              | some b => ["  Response: " ++ b]
              | none => [])),
          writes := [], sleeps := [], fetches := 0 } none
  | .success result =>
    match extract_content result with
    | none =>
      .raised { prints := perplexity_intro, writes := [], sleeps := [], fetches := 0 }
        ("IndexError")
    | some content =>
      match pyDictGet result ("usage") (.obj []),
            pyDictGet result ("search_results") (.arr []) with
      | some usage, some search =>
        match pyDictGet usage ("prompt_tokens") (.str ("N/A")),
              pyDictGet usage ("completion_tokens") (.str ("N/A")),
              pyDictGet usage ("num_search_queries") (.str ("N/A")) with
        | some pt, some ct, some sq =>
          match pyIter search with
          | none =>
            .raised { prints := perplexity_intro ++
                        ["\n✓ Research completed!",
                         "  - Prompt tokens: " ++ pyStr pt,
                         "  - Completion tokens: " ++ pyStr ct,
                         "  - Search queries: " ++ pyStr sq],
                      writes := [], sleeps := [], fetches := 0 } ("TypeError")
          | some sources =>
            let statPrints :=
              ["\n✓ Research completed!",
               "  - Prompt tokens: " ++ pyStr pt,
               "  - Completion tokens: " ++ pyStr ct,
               "  - Search queries: " ++ pyStr sq,
               "  - Citations: " ++ toString sources.length ++ " sources"]
            match source_lines 1 sources with
            | none =>
              .raised { prints := perplexity_intro ++ statPrints,
                        writes := [("perplexity_full_response.json", .jsonDump result)],
                        sleeps := [], fetches := 0 } ("AttributeError")
            | some srcText =>
              .ok { prints := perplexity_intro ++ statPrints ++
                      ["  - Report saved to: research_results/perplexity_report.md"],
                    writes := [("perplexity_full_response.json", .jsonDump result),
                               ("perplexity_report.md", .text
                                 (perplexity_header ts ++ pyStr content ++
                                  perplexity_sources_header ++ srcText))],
                    sleeps := [], fetches := 0 } (some result)
        | _, _, _ =>
          .raised { prints := perplexity_intro ++ ["\n✓ Research completed!"],
                    writes := [], sleeps := [], fetches := 0 } ("AttributeError")
      | _, _ =>
        .raised { prints := perplexity_intro, writes := [], sleeps := [], fetches := 0 }
          ("AttributeError")

/-- Banner prints of `run_gemini_research` (lines 116-118). -/
def gemini_banner : List String :=
  ["\n" ++ strMul ("=") 60,
   "GOOGLE GEMINI DEEP RESEARCH",
   strMul ("=") 60]

/-- Progress prints issued after the client is created (lines 130-132). -/
def gemini_start_prints : List String :=
  ["Starting Gemini deep research...",
   "Query: " ++ RESEARCH_QUERY.take 100 ++ "...",
   "(This may take up to 20 minutes for comprehensive research)"]

/-- The non-terminal progress line printed on each poll (line 161). -/
def statusLine (i : Interaction) (e : Nat) : String :=
  "  Status: " ++ i.status ++ " (" ++ toString e ++ "s elapsed)..."

/-- Result of the poll loop: prints and sleeps it produced, how many status
fetches it issued, and `none` when the fuel ran out with the loop still
going, `some none` on a terminal `failed` status (the pipeline returns
`None`), `some (some i)` on `completed`. -/
structure PollOut where
  prints : List String
  sleeps : List Nat
  fetches : Nat
  result : Option (Option Interaction)

/-- The `while True` poll loop (lines 150-162), fuel-indexed.  `fetch k` is
the interaction returned by the `(k+1)`-st `client.interactions.get` call and
`elapsed k` the `int(time.time() - start_time)` reading of that iteration. -/
def gemini_poll (fetch : Nat → Interaction) (elapsed : Nat → Nat) : Nat → Nat → PollOut
  | 0, _ => { prints := [], sleeps := [], fetches := 0, result := none }
  | fuel + 1, k =>
    let i := fetch k
    let e := elapsed k
    if i.status = "completed" then
      { prints := ["\n✓ Research completed in " ++ toString e ++ " seconds!"],
        sleeps := [], fetches := 1, result := some (some i) }
    else if i.status = "failed" then
      { prints := ["\n✗ Research failed: " ++ i.error],
        sleeps := [], fetches := 1, result := some none }
    else
      let rest := gemini_poll fetch elapsed fuel (k + 1)
      { prints := statusLine i e :: rest.prints,
        sleeps := 10 :: rest.sleeps,
        fetches := rest.fetches + 1,
        result := rest.result }

/-- The serialized interaction snapshot written to
`gemini_full_response.json` (lines 174-183). -/
def gemini_raw_data (i : Interaction) : Json :=
  Json.obj
    [("id", .str i.id),
     ("status", .str i.status),
     ("outputs", .arr ((i.outputs.getD []).map (fun o =>
        Json.obj [("text", .str o.text), ("type", o.otype.getD .null)]))),
     ("usage",
      match i.usage with
      | none => .obj []
      | some g => .obj
          [("prompt_tokens", g.prompt_tokens.getD .null),
           ("completion_tokens", g.completion_tokens.getD .null),
           ("total_tokens", g.total_tokens.getD .null)])]

/-- The markdown document written to `gemini_report.md` (lines 189-198). -/
def gemini_report (ts id content : String) : String :=
  "# Google Gemini Deep Research Report\n## AI Regulation Comparison (EU, US, UK, Canada)\n\n*Generated: " ++ ts ++ "*\n*Interaction ID: " ++ id ++ "*\n\n---\n\n" ++ content ++ "\n"

/-- The Gemini pipeline (`run_gemini_research`), as a function of the
timestamp, the import/install outcome, the result of
`client.interactions.create`, the status-fetch and elapsed-time oracles, and
the poll-loop fuel.  A failed on-demand install escapes as `.raised`; every
error inside the `try` block is caught by `except Exception` and yields
return value `none`. -/
def run_gemini_research (ts : String) (imp : ImportOutcome)
    (createOutcome : Except String Interaction)
    (fetch : Nat → Interaction) (elapsed : Nat → Nat) (fuel : Nat) :
    RunOutcome Interaction :=
  let instPrints : List String :=
    match imp with
    | .available => []
    | _ => ["Installing google-genai package..."]
  match imp with
  | .installFailed err =>
    .raised { prints := gemini_banner ++ instPrints,
              writes := [], sleeps := [], fetches := 0 } err
  | _ =>
    let intro := gemini_banner ++ instPrints ++ gemini_start_prints
    match createOutcome with
    | .error e =>
      .ok { prints := intro ++ ["✗ Gemini API error: " ++ e],
            writes := [], sleeps := [], fetches := 0 } none
    | .ok i0 =>
      let intro2 := intro ++ ["Research started: " ++ i0.id]
      let p := gemini_poll fetch elapsed fuel 0
      match p.result with
      | none =>
        .running { prints := intro2 ++ p.prints, writes := [],
                   sleeps := p.sleeps, fetches := p.fetches }
      | some none =>
        .ok { prints := intro2 ++ p.prints, writes := [],
              sleeps := p.sleeps, fetches := p.fetches } none
      | some (some i) =>
        let content := final_text i.outputs
        .ok { prints := intro2 ++ p.prints ++
                ["  - Total tokens: " ++
                   pyStr (gusageGet i.usage GUsage.total_tokens (.str ("N/A"))),
                 "  - Raw response saved to: research_results/gemini_full_response.json",
                 "  - Report saved to: research_results/gemini_report.md"],
              writes := [("gemini_full_response.json", .jsonDump (gemini_raw_data i)),
                         ("gemini_report.md", .text (gemini_report ts i.id content))],
              sleeps := p.sleeps, fetches := p.fetches } (some i)

/-- The driver (`main`, lines 212-233): header, per-credential warnings, the
two pipelines guarded by credential presence, and the summary.  `outAbs` is
`OUTPUT_DIR.absolute()`. -/
def main (pKey gKey : Option String) (ts : String) (pOutcome : HttpOutcome)
    (imp : ImportOutcome) (createOutcome : Except String Interaction)
    (fetch : Nat → Interaction) (elapsed : Nat → Nat) (fuel : Nat)
    (outAbs : String) : RunOutcome Unit :=
  let hdr := ["\n" ++ strMul ("#") 60,
              "# DEEP RESEARCH COMPARISON",
              "# Query: AI Regulation (EU, US, UK, Canada)",
              strMul ("#") 60]
  let warns :=
    (if credPresent pKey then [] else ["Warning: PERPLEXITY_API_KEY not found in .env"]) ++
    (if credPresent gKey then [] else ["Warning: GOOGLE_API_KEY not found in .env"])
  let pre := printsTrace (hdr ++ warns)
  let pStep : RunOutcome Json :=
    if credPresent pKey then run_perplexity_research ts pOutcome
    else .ok emptyTrace none
  match pStep with
  | .raised tr e => .raised (pre.app tr) e
  | .running tr => .running (pre.app tr)
  | .ok tr1 pRes =>
    let gStep : RunOutcome Interaction :=
      if credPresent gKey then run_gemini_research ts imp createOutcome fetch elapsed fuel
      else .ok emptyTrace none
    match gStep with
    | .raised tr e => .raised ((pre.app tr1).app tr) e
    | .running tr => .running ((pre.app tr1).app tr)
    | .ok tr2 gRes =>
      let summary := printsTrace
        ["\n" ++ strMul ("=") 60,
         "SUMMARY",
         strMul ("=") 60,
         "Perplexity: " ++ (if (pRes.map pyTruthy).getD false then "✓ Completed"
                            else "✗ Failed or skipped"),
         "Gemini:     " ++ (if gRes.isSome then "✓ Completed"
                            else "✗ Failed or skipped"),
         "\nResults saved to: " ++ outAbs ++ "/"]
      .ok (((pre.app tr1).app tr2).app summary) none

/-- Exit status of the process running the script: `0` when `main` returns,
`1` when an exception escapes (Python prints a traceback and exits nonzero);
`none` when the poll loop is still running. -/
def exit_code : RunOutcome Unit → Option Nat
  | .ok _ _ => some 0
  | .raised _ _ => some 1
  | .running _ => none

/-- The status lines printed by `m` consecutive non-terminal polls starting
at fetch index `k`. -/
def statusPrints (fetch : Nat → Interaction) (elapsed : Nat → Nat) : Nat → Nat → List String
  | 0, _ => []
  | m + 1, k => statusLine (fetch k) (elapsed k) :: statusPrints fetch elapsed m (k + 1)

/-- A citation record with the given title and url, as it appears in a
well-formed `search_results` array. -/
def mkSource (p : String × String) : Json :=
  Json.obj [("title", .str p.1), ("url", .str p.2)]

/-- The numbered source list the report is specified to contain: the entry
for the i-th citation (counting from `i0`) is its 1-based index, its title
and its url, in input order. -/
def numberedList : Nat → List (String × String) → String
  | _, [] => ""
  | i, p :: rest =>
    toString i ++ ". [" ++ p.1 ++ "](" ++ p.2 ++ ")\n" ++ numberedList (i + 1) rest

/-- The first element of a present `choices` array is a dict whose `message`
field is either absent or itself a dict (the shapes under which the chained
`.get` calls of line 65 cannot raise once `[0]` succeeded). -/
def message_ok (c : Json) : Bool :=
  match c with
  | .obj ckvs =>
    match ckvs.lookup ("message") with
    | none => true
    | some (.obj _) => true
    | some _ => false
  | _ => false

/-- The `choices` field is absent (so line 65 falls back to `[{}]`) or is a
nonempty array whose first element satisfies `message_ok`. -/
def choices_ok (result : Json) : Bool :=
  match result with
  | .obj kvs =>
    match kvs.lookup ("choices") with
    | none => true
    | some (.arr (c :: _)) => message_ok c
    | some _ => false
  | _ => false

/-- The `usage` field is absent (line 66 falls back to `{}`) or is a dict. -/
def usage_ok (result : Json) : Bool :=
  match result with
  | .obj kvs =>
    match kvs.lookup ("usage") with
    | none => true
    | some (.obj _) => true
    | some _ => false
  | _ => false

/-- Every element of a `search_results` array is a dict (so the per-citation
`.get` calls of line 98 cannot raise; `title` and `url` may be absent). -/
def sources_ok : List Json → Bool
  | [] => true
  | .obj _ :: rest => sources_ok rest
  | _ => false

/-- The `search_results` field is absent (line 67 falls back to `[]`) or is
an array satisfying `sources_ok`. -/
def search_ok (result : Json) : Bool :=
  match result with
  | .obj kvs =>
    match kvs.lookup ("search_results") with
    | none => true
    | some (.arr l) => sources_ok l
    | some _ => false
  | _ => false

/-- A fresh interaction handle with a non-terminal status. -/
def queuedInteraction : Interaction :=
  { id := "job-1", status := "queued", outputs := none, error := "", usage := none }

/-- An in-progress interaction handle. -/
def inprogressInteraction : Interaction :=
  { id := "job-1", status := "in_progress", outputs := none, error := "", usage := none }

/-- A terminally failed interaction handle. -/
def failedInteraction : Interaction :=
  { id := "job-1", status := "failed", outputs := none, error := "provider error", usage := none }

/-- A completed interaction whose single output is the text `REPORT`. -/
def reportInteraction : Interaction :=
  { id := "job-1", status := "completed",
    outputs := some [{ text := "REPORT", otype := none }],
    error := "", usage := none }

/-- A completed interaction with an empty outputs list and a usage object. -/
def emptyOutputsInteraction : Interaction :=
  { id := "job-2", status := "completed", outputs := some [], error := "",
    usage := some { prompt_tokens := some (.num 3), completion_tokens := some (.num 4),
                    total_tokens := some (.num 7) } }

/-- A usage object with all three token counts present. -/
def sampleGUsage : GUsage :=
  { prompt_tokens := some (.num 11), completion_tokens := some (.num 22),
    total_tokens := some (.num 33) }

/-- A completed interaction carrying `sampleGUsage`. -/
def usageInteraction : Interaction :=
  { id := "job-3", status := "completed",
    outputs := some [{ text := "BODY", otype := none }], error := "",
    usage := some sampleGUsage }

/-- The status-fetch oracle of the three-poll scenario of the spec:
`in_progress`, `in_progress`, then `completed` with final text `REPORT`. -/
def fetchThree : Nat → Interaction := fun n =>
  if n < 2 then inprogressInteraction else reportInteraction

/-- A 2xx response body whose `choices` list is present but empty. -/
def emptyChoicesResponse : Json :=
  Json.obj [("choices", .arr [])]

/-- The usage dict of the sample Perplexity success body. -/
def sampleUsage : List (String × Json) :=
  [("prompt_tokens", .num 5), ("completion_tokens", .num 6),
   ("num_search_queries", .num 7)]

/-- The two citations of the sample Perplexity success body. -/
def sampleSources : List (String × String) :=
  [(("T1"), ("http://u1")), (("T2"), ("http://u2"))]

/-- The fields of a well-formed Perplexity success body with known content,
usage and two citations. -/
def sampleFields : List (String × Json) :=
  [("choices", .arr [.obj [("message", .obj [("content", .str ("CONTENT"))])]]),
   ("usage", .obj sampleUsage),
   ("search_results", .arr (sampleSources.map mkSource))]

/-- A well-formed Perplexity success body. -/
def sampleResponse : Json :=
  Json.obj sampleFields

/-- The trace accumulated by a run, whatever its outcome. -/
def RunOutcome.trace {α : Type} : RunOutcome α → Trace
  | .ok tr _ => tr
  | .raised tr _ => tr
  | .running tr => tr

/-- The driver run used for the credential-combination property: both
pipelines fail when invoked (Perplexity with a network error, Gemini with a
terminal `failed` status), so completion lines never appear and the summary
shows the failure line for both invoked and skipped pipelines. -/
def driverRun (pKey gKey : Option String) : RunOutcome Unit :=
  main pKey gKey ("TS") (.failure ("connection error") none) .available
    (.ok queuedInteraction) (fun _ => failedInteraction) (fun _ => 0) 1
    ("/abs/research_results")

/-- A run in which the Perplexity credential is present and the provider
returns a 2xx response whose `choices` list is present but empty, with no
dependency-install failure. -/
def emptyChoicesRun : RunOutcome Unit :=
  main (some ("key")) none ("TS") (.success emptyChoicesResponse) .available
    (.ok queuedInteraction) (fun _ => queuedInteraction) (fun _ => 0) 0 ("/abs")

/-- A non-terminal status is neither `completed` nor `failed`. -/
theorem terminal_false_ne {i : Interaction} (h : terminal i = false) :
    i.status ≠ "completed" ∧ i.status ≠ "failed" := by
  unfold terminal at h
  simp only [Bool.or_eq_false_iff, beq_eq_false_iff_ne] at h
  exact h

/-- Unfolding of the poll loop when the first terminal status is `completed`:
after `m` non-terminal polls (each followed by a 10-second sleep) the loop
breaks on the `(m+1)`-st fetch. -/
theorem gemini_poll_completed (fetch : Nat → Interaction) (elapsed : Nat → Nat) :
    ∀ (m fuel k : Nat), m < fuel →
      (∀ j, j < m → terminal (fetch (k + j)) = false) →
      (fetch (k + m)).status = "completed" →
      gemini_poll fetch elapsed fuel k =
        { prints := statusPrints fetch elapsed m k ++
            ["\n✓ Research completed in " ++ toString (elapsed (k + m)) ++ " seconds!"],
          sleeps := List.replicate m 10,
          fetches := m + 1,
          result := some (some (fetch (k + m))) } := by
  intro m
  induction m with
  | zero =>
    intro fuel k hf hpre hc
    cases fuel with
    | zero => exact absurd hf (by omega)
    | succ f =>
      simp only [Nat.add_zero] at hc ⊢
      simp [gemini_poll, hc, statusPrints]
  | succ m ih =>
    intro fuel k hf hpre hc
    cases fuel with
    | zero => exact absurd hf (by omega)
    | succ f =>
      have h0 : terminal (fetch k) = false := by
        have h := hpre 0 (Nat.succ_pos m)
        simpa using h
      have hne := terminal_false_ne h0
      have hrec := ih f (k + 1) (by omega)
        (fun j hj => by
          have h := hpre (j + 1) (by omega)
          have e : k + (j + 1) = (k + 1) + j := by omega
          rwa [e] at h)
        (by
          have e : (k + 1) + m = k + (m + 1) := by omega
          rw [e]; exact hc)
      have e : (k + 1) + m = k + (m + 1) := by omega
      rw [e] at hrec
      simp only [gemini_poll]
      rw [if_neg hne.1, if_neg hne.2, hrec]
      simp [statusPrints, List.replicate]

/-- Unfolding of the poll loop when the first terminal status is `failed`:
the loop stops after the `(m+1)`-st fetch, prints the provider error detail,
and reports failure. -/
theorem gemini_poll_failed (fetch : Nat → Interaction) (elapsed : Nat → Nat) :
    ∀ (m fuel k : Nat), m < fuel →
      (∀ j, j < m → terminal (fetch (k + j)) = false) →
      (fetch (k + m)).status = "failed" →
      gemini_poll fetch elapsed fuel k =
        { prints := statusPrints fetch elapsed m k ++
            ["\n✗ Research failed: " ++ (fetch (k + m)).error],
          sleeps := List.replicate m 10,
          fetches := m + 1,
          result := some none } := by
  intro m
  induction m with
  | zero =>
    intro fuel k hf hpre hc
    cases fuel with
    | zero => exact absurd hf (by omega)
    | succ f =>
      simp only [Nat.add_zero] at hc ⊢
      have hne : (fetch k).status ≠ "completed" := by
        rw [hc]; decide
      simp only [gemini_poll]
      rw [if_neg hne, if_pos hc]
      simp [statusPrints]
  | succ m ih =>
    intro fuel k hf hpre hc
    cases fuel with
    | zero => exact absurd hf (by omega)
    | succ f =>
      have h0 : terminal (fetch k) = false := by
        have h := hpre 0 (Nat.succ_pos m)
        simpa using h
      have hne := terminal_false_ne h0
      have hrec := ih f (k + 1) (by omega)
        (fun j hj => by
          have h := hpre (j + 1) (by omega)
          have e : k + (j + 1) = (k + 1) + j := by omega
          rwa [e] at h)
        (by
          have e : (k + 1) + m = k + (m + 1) := by omega
          rw [e]; exact hc)
      have e : (k + 1) + m = k + (m + 1) := by omega
      rw [e] at hrec
      simp only [gemini_poll]
      rw [if_neg hne.1, if_neg hne.2, hrec]
      simp [statusPrints, List.replicate]

/-- When no fetch ever returns a terminal status the poll loop consumes all
its fuel without producing a result. -/
theorem gemini_poll_no_terminal (fetch : Nat → Interaction) (elapsed : Nat → Nat)
    (h : ∀ n, terminal (fetch n) = false) :
    ∀ (fuel k : Nat), (gemini_poll fetch elapsed fuel k).result = none := by
  intro fuel
  induction fuel with
  | zero => intro k; simp [gemini_poll]
  | succ f ih =>
    intro k
    have hne := terminal_false_ne (h k)
    simp only [gemini_poll]
    rw [if_neg hne.1, if_neg hne.2]
    exact ih (k + 1)

/-- Unfolding of `run_perplexity_research` on a success outcome whose
extraction steps all succeed. -/
theorem run_perplexity_success_eq (ts : String) (result : Json)
    (content usage search : Json) (sources : List Json) (pt ct sq : Json)
    (srcText : String)
    (h1 : extract_content result = some content)
    (h2 : pyDictGet result ("usage") (.obj []) = some usage)
    (h3 : pyDictGet result ("search_results") (.arr []) = some search)
    (h4 : pyDictGet usage ("prompt_tokens") (.str ("N/A")) = some pt)
    (h5 : pyDictGet usage ("completion_tokens") (.str ("N/A")) = some ct)
    (h6 : pyDictGet usage ("num_search_queries") (.str ("N/A")) = some sq)
    (h7 : pyIter search = some sources)
    (h8 : source_lines 1 sources = some srcText) :
    run_perplexity_research ts (.success result) =
      .ok { prints := perplexity_intro ++
              ["\n✓ Research completed!",
               "  - Prompt tokens: " ++ pyStr pt,
               "  - Completion tokens: " ++ pyStr ct,
               "  - Search queries: " ++ pyStr sq,
               "  - Citations: " ++ toString sources.length ++ " sources"] ++
              ["  - Report saved to: research_results/perplexity_report.md"],
            writes := [("perplexity_full_response.json", .jsonDump result),
                       ("perplexity_report.md", .text
                         (perplexity_header ts ++ pyStr content ++
                          perplexity_sources_header ++ srcText))],
            sleeps := [], fetches := 0 } (some result) := by
  simp only [run_perplexity_research, h1, h2, h3, h4, h5, h6, h7, h8]

/-- Unfolding of the Gemini pipeline when the `(m+1)`-st status fetch is the
first terminal one and reports `completed`. -/
theorem run_gemini_completed_eq (ts : String) (i0 : Interaction)
    (fetch : Nat → Interaction) (elapsed : Nat → Nat) (fuel m : Nat)
    (hf : m < fuel)
    (hpre : ∀ j, j < m → terminal (fetch j) = false)
    (hc : (fetch m).status = "completed") :
    run_gemini_research ts .available (.ok i0) fetch elapsed fuel =
      .ok { prints := gemini_banner ++ gemini_start_prints ++
              ["Research started: " ++ i0.id] ++ statusPrints fetch elapsed m 0 ++
              ["\n✓ Research completed in " ++ toString (elapsed m) ++ " seconds!",
               "  - Total tokens: " ++
                 pyStr (gusageGet (fetch m).usage GUsage.total_tokens (.str ("N/A"))),
               "  - Raw response saved to: research_results/gemini_full_response.json",
               "  - Report saved to: research_results/gemini_report.md"],
            writes := [("gemini_full_response.json", .jsonDump (gemini_raw_data (fetch m))),
                       ("gemini_report.md",
                        .text (gemini_report ts (fetch m).id (final_text (fetch m).outputs)))],
            sleeps := List.replicate m 10,
            fetches := m + 1 } (some (fetch m)) := by
  have hp := gemini_poll_completed fetch elapsed m fuel 0 hf
    (fun j hj => by simpa using hpre j hj) (by simpa using hc)
  simp only [Nat.zero_add] at hp
  simp only [run_gemini_research, hp]
  simp [List.append_assoc]

/-- Unfolding of the Gemini pipeline when the `(m+1)`-st status fetch is the
first terminal one and reports `failed`. -/
theorem run_gemini_failed_eq (ts : String) (i0 : Interaction)
    (fetch : Nat → Interaction) (elapsed : Nat → Nat) (fuel m : Nat)
    (hf : m < fuel)
    (hpre : ∀ j, j < m → terminal (fetch j) = false)
    (hc : (fetch m).status = "failed") :
    run_gemini_research ts .available (.ok i0) fetch elapsed fuel =
      .ok { prints := gemini_banner ++ gemini_start_prints ++
              ["Research started: " ++ i0.id] ++ statusPrints fetch elapsed m 0 ++
              ["\n✗ Research failed: " ++ (fetch m).error],
            writes := [],
            sleeps := List.replicate m 10,
            fetches := m + 1 } none := by
  have hp := gemini_poll_failed fetch elapsed m fuel 0 hf
    (fun j hj => by simpa using hpre j hj) (by simpa using hc)
  simp only [Nat.zero_add] at hp
  simp only [run_gemini_research, hp]
  simp [List.append_assoc]

/-- C1: on the status sequence `in_progress`, `in_progress`, `completed`
whose completed interaction has final output text `REPORT`, the Gemini
pipeline performs exactly three status fetches, sleeps 10 seconds after each
of the two non-terminal polls, and the written `gemini_report.md` contains
the string `REPORT`. -/
theorem gemini_three_polls_write_report (ts : String) (i0 : Interaction)
    (fetch : Nat → Interaction) (elapsed : Nat → Nat) (fuel : Nat)
    (hfuel : 3 ≤ fuel)
    (h0 : (fetch 0).status = "in_progress")
    (h1 : (fetch 1).status = "in_progress")
    (h2 : (fetch 2).status = "completed")
    (hrep : final_text (fetch 2).outputs = "REPORT") :
    ∃ tr, run_gemini_research ts .available (.ok i0) fetch elapsed fuel =
        .ok tr (some (fetch 2)) ∧
      tr.fetches = 3 ∧ tr.sleeps = [10, 10] ∧
      ∃ a b, ("gemini_report.md", ArtifactContent.text (a ++ "REPORT" ++ b)) ∈ tr.writes := by
  have hpre : ∀ j, j < 2 → terminal (fetch j) = false := by
    intro j hj
    interval_cases j
    · simp [terminal, h0]
    · simp [terminal, h1]
  have heq := run_gemini_completed_eq ts i0 fetch elapsed fuel 2 (by omega) hpre h2
  refine ⟨_, heq, rfl, rfl, ?_⟩
  refine ⟨"# Google Gemini Deep Research Report\n## AI Regulation Comparison (EU, US, UK, Canada)\n\n*Generated: " ++ ts ++ "*\n*Interaction ID: " ++ (fetch 2).id ++ "*\n\n---\n\n", "\n", ?_⟩
  simp [gemini_report, hrep]

/-- C1 witness: the three-poll scenario instantiated with a concrete fetch
oracle. -/
theorem gemini_three_polls_write_report_witness :
    ∃ tr, run_gemini_research ("TS") .available (.ok inprogressInteraction)
        fetchThree (fun _ => 0) 3 = .ok tr (some (fetchThree 2)) ∧
      tr.fetches = 3 ∧ tr.sleeps = [10, 10] ∧
      ∃ a b, ("gemini_report.md", ArtifactContent.text (a ++ "REPORT" ++ b)) ∈ tr.writes :=
  gemini_three_polls_write_report ("TS") inprogressInteraction fetchThree (fun _ => 0) 3
    (by omega) rfl rfl rfl rfl

/-- C5: when a status fetch returns the terminal status `failed` (after `m`
non-terminal polls), the Gemini pipeline prints the provider-supplied error
detail, performs no further status fetches, writes nothing, and returns
`None` without raising. -/
theorem gemini_failed_aborts (ts : String) (i0 : Interaction)
    (fetch : Nat → Interaction) (elapsed : Nat → Nat) (fuel m : Nat)
    (hf : m < fuel)
    (hpre : ∀ j, j < m → terminal (fetch j) = false)
    (hfail : (fetch m).status = "failed") :
    ∃ tr, run_gemini_research ts .available (.ok i0) fetch elapsed fuel = .ok tr none ∧
      tr.fetches = m + 1 ∧ tr.writes = [] ∧
      ("\n✗ Research failed: " ++ (fetch m).error) ∈ tr.prints := by
  have heq := run_gemini_failed_eq ts i0 fetch elapsed fuel m hf hpre hfail
  refine ⟨_, heq, rfl, rfl, ?_⟩
  simp

/-- C5 witness: the first status fetch already reports `failed`. -/
theorem gemini_failed_aborts_witness :
    ∃ tr, run_gemini_research ("TS") .available (.ok queuedInteraction)
        (fun _ => failedInteraction) (fun _ => 0) 5 = .ok tr none ∧
      tr.fetches = 0 + 1 ∧ tr.writes = [] ∧
      ("\n✗ Research failed: " ++ (failedInteraction).error) ∈ tr.prints :=
  gemini_failed_aborts ("TS") queuedInteraction (fun _ => failedInteraction) (fun _ => 0)
    5 0 (by omega) (fun j hj => absurd hj (by omega)) rfl

/-- C8: the poll loop enforces no maximum number of attempts and no overall
timeout: if no status fetch ever returns `completed` or `failed`, the
pipeline is still polling after any amount of fuel. -/
theorem gemini_poll_unbounded (ts : String) (i0 : Interaction)
    (fetch : Nat → Interaction) (elapsed : Nat → Nat)
    (h : ∀ n, terminal (fetch n) = false) (fuel : Nat) :
    ∃ tr, run_gemini_research ts .available (.ok i0) fetch elapsed fuel = .running tr := by
  have hres := gemini_poll_no_terminal fetch elapsed h fuel 0
  simp only [run_gemini_research, hres]
  exact ⟨_, rfl⟩

/-- C8 witness: a constant `in_progress` oracle keeps the loop running with
fuel 7. -/
theorem gemini_poll_unbounded_witness :
    ∃ tr, run_gemini_research ("TS") .available (.ok queuedInteraction)
        (fun _ => inprogressInteraction) (fun _ => 0) 7 = .running tr :=
  gemini_poll_unbounded ("TS") queuedInteraction (fun _ => inprogressInteraction)
    (fun _ => 0) (fun _ => rfl) 7

/-- C10: when the first status fetch reports `completed` with an empty or
absent outputs sequence, the Gemini pipeline does not raise: the report body
is the empty string, the snapshot records an empty outputs list, both gemini
artifacts are written, and the interaction is returned (counted as success). -/
theorem gemini_empty_outputs_success (ts : String) (i0 : Interaction)
    (fetch : Nat → Interaction) (elapsed : Nat → Nat) (fuel : Nat)
    (hf : 0 < fuel)
    (hc : (fetch 0).status = "completed")
    (ho : (fetch 0).outputs = none ∨ (fetch 0).outputs = some []) :
    ∃ tr, run_gemini_research ts .available (.ok i0) fetch elapsed fuel =
        .ok tr (some (fetch 0)) ∧
      ("gemini_report.md", ArtifactContent.text (gemini_report ts (fetch 0).id (""))) ∈ tr.writes ∧
      ("gemini_full_response.json", ArtifactContent.jsonDump (gemini_raw_data (fetch 0))) ∈ tr.writes ∧
      pyDictGet (gemini_raw_data (fetch 0)) ("outputs") (.arr []) = some (.arr []) := by
  have hempty : final_text (fetch 0).outputs = "" := by
    rcases ho with ho | ho <;> rw [ho] <;> rfl
  have heq := run_gemini_completed_eq ts i0 fetch elapsed fuel 0 hf
    (fun j hj => absurd hj (by omega)) hc
  refine ⟨_, heq, ?_, ?_, ?_⟩
  · simp [hempty]
  · simp
  · rcases ho with ho | ho <;>
      simp [gemini_raw_data, pyDictGet, ho, List.lookup]

/-- C10 witness: a concrete completed interaction with `outputs = []`. -/
theorem gemini_empty_outputs_success_witness :
    ∃ tr, run_gemini_research ("TS") .available (.ok emptyOutputsInteraction)
        (fun _ => emptyOutputsInteraction) (fun _ => 0) 1 =
        .ok tr (some emptyOutputsInteraction) ∧
      ("gemini_report.md",
        ArtifactContent.text (gemini_report ("TS") (emptyOutputsInteraction).id (""))) ∈ tr.writes ∧
      ("gemini_full_response.json",
        ArtifactContent.jsonDump (gemini_raw_data emptyOutputsInteraction)) ∈ tr.writes ∧
      pyDictGet (gemini_raw_data emptyOutputsInteraction) ("outputs") (.arr []) =
        some (.arr []) :=
  gemini_empty_outputs_success ("TS") emptyOutputsInteraction
    (fun _ => emptyOutputsInteraction) (fun _ => 0) 1 (by omega) rfl (Or.inr rfl)

/-- C2: on any network-layer or non-2xx HTTP failure, the Perplexity
pipeline catches the error, prints the error message (and the raw response
body when one is available), returns `None` instead of raising, and writes
no artifact — in particular `perplexity_report.md` is not created. -/
theorem perplexity_failure_no_result (ts msg : String) (body : Option String) :
    ∃ tr, run_perplexity_research ts (.failure msg body) = .ok tr none ∧
      tr.writes = [] ∧
      ("✗ Perplexity API error: " ++ msg) ∈ tr.prints ∧
      (match body with
       | some b => ("  Response: " ++ b) ∈ tr.prints
       | none => True) := by
  cases body with
  | none => exact ⟨_, rfl, rfl, by simp, trivial⟩
  | some b => exact ⟨_, rfl, rfl, by simp, by simp⟩

/-- C3: for every combination of credential presence the driver returns
normally, runs exactly the pipelines whose credential is present (witnessed
by their banner prints), warns exactly for the absent credentials, and the
summary shows the same failed-or-skipped line for a skipped pipeline as for
a failed one. -/
theorem driver_credential_combinations (pKey gKey : Option String) :
    (driverRun pKey gKey).isOk = true ∧
    ((("PERPLEXITY SONAR DEEP RESEARCH") ∈ (driverRun pKey gKey).trace.prints) ↔
      credPresent pKey = true) ∧
    ((("GOOGLE GEMINI DEEP RESEARCH") ∈ (driverRun pKey gKey).trace.prints) ↔
      credPresent gKey = true) ∧
    ((("Warning: PERPLEXITY_API_KEY not found in .env") ∈ (driverRun pKey gKey).trace.prints) ↔
      credPresent pKey = false) ∧
    ((("Warning: GOOGLE_API_KEY not found in .env") ∈ (driverRun pKey gKey).trace.prints) ↔
      credPresent gKey = false) ∧
    ("Perplexity: ✗ Failed or skipped") ∈ (driverRun pKey gKey).trace.prints ∧
    ("Gemini:     ✗ Failed or skipped") ∈ (driverRun pKey gKey).trace.prints ∧
    (driverRun pKey gKey).trace.writes.isEmpty = true := by
  cases hp : credPresent pKey <;> cases hg : credPresent gKey <;>
    simp only [driverRun, main, hp, hg] <;> decide

/-- C6 counterexample: a run in which the dependency install succeeds but a
2xx Perplexity response with a present-but-empty `choices` list makes the
uncaught `IndexError` escape, so the process exits with status 1. -/
theorem exit_nonzero_on_empty_choices :
    exit_code emptyChoicesRun = some 1 ∧
    ImportOutcome.isInstallFailed .available = false :=
  ⟨rfl, rfl⟩

/-- No branch of the Perplexity pipeline is fuel-limited. -/
theorem perplexity_not_running (ts : String) (o : HttpOutcome) :
    (run_perplexity_research ts o).isRunning = false := by
  unfold run_perplexity_research
  repeat' split
  all_goals rfl

/-- The only exception escaping the Gemini pipeline is a failed on-demand
install. -/
theorem gemini_not_raised (ts : String) (imp : ImportOutcome)
    (createOutcome : Except String Interaction)
    (fetch : Nat → Interaction) (elapsed : Nat → Nat) (fuel : Nat)
    (h : imp.isInstallFailed = false) :
    (run_gemini_research ts imp createOutcome fetch elapsed fuel).isRaised = false := by
  cases imp with
  | installFailed e => exact absurd h (by simp [ImportOutcome.isInstallFailed])
  | available =>
    simp only [run_gemini_research]
    cases createOutcome with
    | error e => rfl
    | ok i0 =>
      cases hres : (gemini_poll fetch elapsed fuel 0).result with
      | none => simp [hres, RunOutcome.isRaised]
      | some r =>
        cases r with
        | none => simp [hres, RunOutcome.isRaised]
        | some i => simp [hres, RunOutcome.isRaised]
  | installedOk =>
    simp only [run_gemini_research]
    cases createOutcome with
    | error e => rfl
    | ok i0 =>
      cases hres : (gemini_poll fetch elapsed fuel 0).result with
      | none => simp [hres, RunOutcome.isRaised]
      | some r =>
        cases r with
        | none => simp [hres, RunOutcome.isRaised]
        | some i => simp [hres, RunOutcome.isRaised]

/-- A run that neither raised nor ran out of fuel returned normally. -/
theorem run_ok_of_not_raised_not_running {α : Type} (x : RunOutcome α)
    (h1 : x.isRaised = false) (h2 : x.isRunning = false) :
    ∃ tr r, x = .ok tr r := by
  cases x with
  | ok tr r => exact ⟨tr, r, rfl⟩
  | raised tr e => simp [RunOutcome.isRaised] at h1
  | running tr => simp [RunOutcome.isRunning] at h2

/-- C6 (amended): the process exits with status zero on every run in which
the optional-dependency install does not fail, the Perplexity pipeline does
not raise (as it can on a malformed 2xx body), and the Gemini poll loop
reaches a terminal status. -/
theorem exit_zero_when_no_escape (pKey gKey : Option String) (ts : String)
    (pOutcome : HttpOutcome) (imp : ImportOutcome)
    (createOutcome : Except String Interaction)
    (fetch : Nat → Interaction) (elapsed : Nat → Nat) (fuel : Nat) (outAbs : String)
    (h1 : imp.isInstallFailed = false)
    (h2 : (run_perplexity_research ts pOutcome).isRaised = false)
    (h3 : (run_gemini_research ts imp createOutcome fetch elapsed fuel).isRunning = false) :
    exit_code (main pKey gKey ts pOutcome imp createOutcome fetch elapsed fuel outAbs) =
      some 0 := by
  have hpok : ∃ tr r, (if credPresent pKey then run_perplexity_research ts pOutcome
      else .ok emptyTrace none) = RunOutcome.ok tr r := by
    cases hcp : credPresent pKey
    · exact ⟨emptyTrace, none, by simp⟩
    · simp only [if_pos rfl]
      exact run_ok_of_not_raised_not_running _ h2 (perplexity_not_running ts pOutcome)
  obtain ⟨tr1, r1, e1⟩ := hpok
  have hgok : ∃ tr r, (if credPresent gKey then
      run_gemini_research ts imp createOutcome fetch elapsed fuel
      else .ok emptyTrace none) = RunOutcome.ok tr r := by
    cases hcg : credPresent gKey
    · exact ⟨emptyTrace, none, by simp⟩
    · simp only [if_pos rfl]
      exact run_ok_of_not_raised_not_running _
        (gemini_not_raised ts imp createOutcome fetch elapsed fuel h1) h3
  obtain ⟨tr2, r2, e2⟩ := hgok
  simp only [main, e1, e2, exit_code]

/-- C6 (amended) witness: both pipelines invoked, both failing benignly. -/
theorem exit_zero_when_no_escape_witness :
    exit_code (main (some ("pk")) (some ("gk")) ("TS") (.failure ("boom") none) .available
      (.ok queuedInteraction) (fun _ => failedInteraction) (fun _ => 0) 1 ("/abs")) =
      some 0 :=
  exit_zero_when_no_escape (some ("pk")) (some ("gk")) ("TS") (.failure ("boom") none)
    .available (.ok queuedInteraction) (fun _ => failedInteraction) (fun _ => 0) 1 ("/abs")
    rfl rfl rfl

/-- The citation loop on a list of well-formed sources produces exactly the
numbered list in input order. -/
theorem source_lines_map (srcs : List (String × String)) :
    ∀ i, source_lines i (srcs.map mkSource) = some (numberedList i srcs) := by
  induction srcs with
  | nil => intro i; rfl
  | cons p rest ih =>
    intro i
    simp [source_lines, mkSource, pyDictGet, List.lookup, pyStr, numberedList, ih (i + 1)]

/-- C4: on a successful Perplexity response with content string `c`, a usage
dict, and a citation list built from `title`/`url` pairs `srcs`, the written
`perplexity_report.md` is the fixed header, then `c` verbatim, then the
sources separator, then the numbered source list whose i-th entry (numbered
from 1) is the title and url of the i-th element of `srcs`, in order. -/
theorem perplexity_report_content_and_sources (ts c : String) (result : Json)
    (ukvs : List (String × Json)) (srcs : List (String × String))
    (hc : extract_content result = some (.str c))
    (hu : pyDictGet result ("usage") (.obj []) = some (.obj ukvs))
    (hs : pyDictGet result ("search_results") (.arr []) = some (.arr (srcs.map mkSource))) :
    ∃ tr, run_perplexity_research ts (.success result) = .ok tr (some result) ∧
      ("perplexity_report.md", ArtifactContent.text
        (perplexity_header ts ++ c ++ perplexity_sources_header ++ numberedList 1 srcs)) ∈
        tr.writes := by
  have heq := run_perplexity_success_eq ts result (.str c) (.obj ukvs)
    (.arr (srcs.map mkSource)) (srcs.map mkSource)
    ((ukvs.lookup ("prompt_tokens")).getD (.str ("N/A")))
    ((ukvs.lookup ("completion_tokens")).getD (.str ("N/A")))
    ((ukvs.lookup ("num_search_queries")).getD (.str ("N/A")))
    (numberedList 1 srcs) hc hu hs rfl rfl rfl rfl (source_lines_map srcs 1)
  refine ⟨_, heq, ?_⟩
  simp [pyStr]

/-- C4 witness: the sample response with content `CONTENT` and two sources. -/
theorem perplexity_report_content_and_sources_witness :
    ∃ tr, run_perplexity_research ("TS") (.success sampleResponse) =
        .ok tr (some sampleResponse) ∧
      ("perplexity_report.md", ArtifactContent.text
        (perplexity_header ("TS") ++ ("CONTENT") ++ perplexity_sources_header ++
         numberedList 1 sampleSources)) ∈ tr.writes :=
  perplexity_report_content_and_sources ("TS") ("CONTENT") sampleResponse
    sampleUsage sampleSources rfl rfl rfl

/-- When the `choices` field is absent or well-formed, the extraction of the
report content cannot raise. -/
theorem extract_content_of_choices_ok {kvs : List (String × Json)}
    (h : choices_ok (.obj kvs) = true) :
    ∃ content, extract_content (.obj kvs) = some content := by
  simp only [choices_ok] at h
  cases hch : kvs.lookup ("choices") with
  | none =>
    exact ⟨.str (""), by simp [extract_content, pyDictGet, hch, pyIndex0]⟩
  | some c =>
    rw [hch] at h
    cases c with
    | null => simp at h
    | bool b => simp at h
    | num n => simp at h
    | str s => simp at h
    | obj o => simp at h
    | arr l =>
      cases l with
      | nil => simp at h
      | cons c0 rest =>
        simp only [message_ok] at h
        cases c0 with
        | null => simp at h
        | bool b => simp at h
        | num n => simp at h
        | str s => simp at h
        | arr a => simp at h
        | obj ckvs =>
          simp only [message_ok] at h
          cases hm : ckvs.lookup ("message") with
          | none =>
            exact ⟨.str (""), by simp [extract_content, pyDictGet, hch, pyIndex0, hm]⟩
          | some m =>
            simp only [hm] at h
            cases m with
            | null => simp at h
            | bool b => simp at h
            | num n => simp at h
            | str s => simp at h
            | arr a => simp at h
            | obj mkvs =>
              exact ⟨(mkvs.lookup ("content")).getD (.str ("")),
                by simp [extract_content, pyDictGet, hch, pyIndex0, hm]⟩

/-- When every element of a sources list is a dict, the citation loop cannot
raise. -/
theorem source_lines_of_sources_ok :
    ∀ (l : List Json), sources_ok l = true → ∀ i, ∃ s, source_lines i l = some s := by
  intro l
  induction l with
  | nil => exact fun h i => ⟨"", rfl⟩
  | cons x rest ih =>
    intro h i
    cases x with
    | null => simp [sources_ok] at h
    | bool b => simp [sources_ok] at h
    | num n => simp [sources_ok] at h
    | str s => simp [sources_ok] at h
    | arr a => simp [sources_ok] at h
    | obj xkvs =>
      have h2 : sources_ok rest = true := by simpa [sources_ok] using h
      obtain ⟨s, hs⟩ := ih h2 (i + 1)
      refine ⟨toString i ++ ". [" ++
        pyStr ((xkvs.lookup ("title")).getD (.str ("Untitled"))) ++ "](" ++
        pyStr ((xkvs.lookup ("url")).getD (.str (""))) ++ ")\n" ++ s, ?_⟩
      simp [source_lines, pyDictGet, hs]

/-- When the `search_results` field is absent or a list of dicts, the search
extraction and citation loop cannot raise. -/
theorem search_pieces_of_search_ok {kvs : List (String × Json)}
    (h : search_ok (.obj kvs) = true) :
    ∃ search sources, pyDictGet (.obj kvs) ("search_results") (.arr []) = some search ∧
      pyIter search = some sources ∧ sources_ok sources = true := by
  simp only [search_ok] at h
  cases hs : kvs.lookup ("search_results") with
  | none => exact ⟨.arr [], [], by simp [pyDictGet, hs], rfl, rfl⟩
  | some v =>
    rw [hs] at h
    cases v with
    | null => simp at h
    | bool b => simp at h
    | num n => simp at h
    | str s => simp at h
    | obj o => simp at h
    | arr l => exact ⟨.arr l, l, by simp [pyDictGet, hs], rfl, h⟩

/-- C7: on a 2xx response in which the `choices` list, the message, the
content, the `usage` field, the `search_results` list, or any per-citation
title/url may be missing (each falling back to its default), the Perplexity
pipeline never raises: it completes, returns the response, and writes both
artifacts; a missing `choices` yields the empty content and a missing
`usage` prints `N/A` metrics. -/
theorem perplexity_defensive_extraction (ts : String) (kvs : List (String × Json))
    (hc : choices_ok (.obj kvs) = true)
    (hu : usage_ok (.obj kvs) = true)
    (hs : search_ok (.obj kvs) = true) :
    ∃ tr, run_perplexity_research ts (.success (.obj kvs)) = .ok tr (some (.obj kvs)) ∧
      ("perplexity_full_response.json", ArtifactContent.jsonDump (.obj kvs)) ∈ tr.writes ∧
      (∃ rep, ("perplexity_report.md", ArtifactContent.text rep) ∈ tr.writes) ∧
      (kvs.lookup ("choices") = none → extract_content (.obj kvs) = some (.str (""))) ∧
      (kvs.lookup ("usage") = none → ("  - Prompt tokens: N/A") ∈ tr.prints) := by
  obtain ⟨content, hcontent⟩ := extract_content_of_choices_ok hc
  obtain ⟨search, sources, hsearch, hiter, hsok⟩ := search_pieces_of_search_ok hs
  obtain ⟨srcText, hsrc⟩ := source_lines_of_sources_ok sources hsok 1
  cases hul : kvs.lookup ("usage") with
  | none =>
    have husage : pyDictGet (.obj kvs) ("usage") (.obj []) = some (.obj []) := by
      simp [pyDictGet, hul]
    have heq := run_perplexity_success_eq ts (.obj kvs) content (.obj [])
      search sources (.str ("N/A")) (.str ("N/A")) (.str ("N/A")) srcText
      hcontent husage hsearch rfl rfl rfl hiter hsrc
    refine ⟨_, heq, by simp, ?_, ?_, ?_⟩
    · exact ⟨perplexity_header ts ++ pyStr content ++ perplexity_sources_header ++ srcText,
        by simp⟩
    · intro h0
      simp [extract_content, pyDictGet, h0, pyIndex0]
    · intro h0
      simp [pyStr]
  | some u =>
    simp only [usage_ok] at hu
    rw [hul] at hu
    cases u with
    | null => simp at hu
    | bool b => simp at hu
    | num n => simp at hu
    | str s => simp at hu
    | arr a => simp at hu
    | obj ukvs =>
      have husage : pyDictGet (.obj kvs) ("usage") (.obj []) = some (.obj ukvs) := by
        simp [pyDictGet, hul]
      have heq := run_perplexity_success_eq ts (.obj kvs) content (.obj ukvs)
        search sources
        ((ukvs.lookup ("prompt_tokens")).getD (.str ("N/A")))
        ((ukvs.lookup ("completion_tokens")).getD (.str ("N/A")))
        ((ukvs.lookup ("num_search_queries")).getD (.str ("N/A")))
        srcText hcontent husage hsearch rfl rfl rfl hiter hsrc
      refine ⟨_, heq, by simp, ?_, ?_, ?_⟩
      · exact ⟨perplexity_header ts ++ pyStr content ++ perplexity_sources_header ++ srcText,
          by simp⟩
      · intro h0
        simp [extract_content, pyDictGet, h0, pyIndex0]
      · intro h0
        exact Option.noConfusion h0

/-- C7 witness: the empty response body, with every field missing. -/
theorem perplexity_defensive_extraction_witness :
    ∃ tr, run_perplexity_research ("TS") (.success (.obj [])) = .ok tr (some (.obj [])) ∧
      ("perplexity_full_response.json", ArtifactContent.jsonDump (.obj [])) ∈ tr.writes ∧
      (∃ rep, ("perplexity_report.md", ArtifactContent.text rep) ∈ tr.writes) ∧
      (List.lookup ("choices") ([] : List (String × Json)) = none →
        extract_content (.obj []) = some (.str (""))) ∧
      (List.lookup ("usage") ([] : List (String × Json)) = none →
        ("  - Prompt tokens: N/A") ∈ tr.prints) :=
  perplexity_defensive_extraction ("TS") [] rfl rfl rfl

/-- C9: for each provider's successful run the raw JSON artifact, read back,
carries the same usage metric values the pipeline printed.  Perplexity dumps
the received body itself, so the three printed counts equal the counts under
its `usage` key; Gemini rebuilds a snapshot dict whose
`usage.total_tokens` equals the printed total. -/
theorem usage_roundtrip
    (ts : String) (kvs ukvs : List (String × Json)) (np nc nq : Int)
    (hch : choices_ok (.obj kvs) = true)
    (hse : search_ok (.obj kvs) = true)
    (hu : kvs.lookup ("usage") = some (.obj ukvs))
    (hp : ukvs.lookup ("prompt_tokens") = some (.num np))
    (hcm : ukvs.lookup ("completion_tokens") = some (.num nc))
    (hq : ukvs.lookup ("num_search_queries") = some (.num nq))
    (ts2 : String) (i0 : Interaction) (fetch : Nat → Interaction)
    (elapsed : Nat → Nat) (fuel : Nat) (g : GUsage) (nt : Int)
    (hfuel : 0 < fuel)
    (hst : (fetch 0).status = "completed")
    (hgu : (fetch 0).usage = some g)
    (ht : g.total_tokens = some (.num nt)) :
    (∃ tr, run_perplexity_research ts (.success (.obj kvs)) = .ok tr (some (.obj kvs)) ∧
      ("  - Prompt tokens: " ++ toString np) ∈ tr.prints ∧
      ("  - Completion tokens: " ++ toString nc) ∈ tr.prints ∧
      ("  - Search queries: " ++ toString nq) ∈ tr.prints ∧
      ("perplexity_full_response.json", ArtifactContent.jsonDump (.obj kvs)) ∈ tr.writes ∧
      (∃ akvs, pyDictGet (.obj kvs) ("usage") (.obj []) = some (.obj akvs) ∧
        akvs.lookup ("prompt_tokens") = some (.num np) ∧
        akvs.lookup ("completion_tokens") = some (.num nc) ∧
        akvs.lookup ("num_search_queries") = some (.num nq))) ∧
    (∃ tr2, run_gemini_research ts2 .available (.ok i0) fetch elapsed fuel =
        .ok tr2 (some (fetch 0)) ∧
      ("  - Total tokens: " ++ toString nt) ∈ tr2.prints ∧
      ("gemini_full_response.json",
        ArtifactContent.jsonDump (gemini_raw_data (fetch 0))) ∈ tr2.writes ∧
      (∃ gkvs, pyDictGet (gemini_raw_data (fetch 0)) ("usage") (.obj []) =
          some (.obj gkvs) ∧
        gkvs.lookup ("total_tokens") = some (.num nt))) := by
  constructor
  · obtain ⟨content, hcontent⟩ := extract_content_of_choices_ok hch
    obtain ⟨search, sources, hsearch, hiter, hsok⟩ := search_pieces_of_search_ok hse
    obtain ⟨srcText, hsrc⟩ := source_lines_of_sources_ok sources hsok 1
    have husage : pyDictGet (.obj kvs) ("usage") (.obj []) = some (.obj ukvs) := by
      simp [pyDictGet, hu]
    have heq := run_perplexity_success_eq ts (.obj kvs) content (.obj ukvs)
      search sources (.num np) (.num nc) (.num nq) srcText
      hcontent husage hsearch
      (by simp [pyDictGet, hp]) (by simp [pyDictGet, hcm]) (by simp [pyDictGet, hq])
      hiter hsrc
    refine ⟨_, heq, ?_, ?_, ?_, by simp, ⟨ukvs, husage, hp, hcm, hq⟩⟩
    · simp [pyStr]
    · simp [pyStr]
    · simp [pyStr]
  · have heq := run_gemini_completed_eq ts2 i0 fetch elapsed fuel 0 hfuel
      (fun j hj => absurd hj (by omega)) hst
    refine ⟨_, heq, ?_, by simp, ?_⟩
    · simp [gusageGet, hgu, ht, pyStr]
    · refine ⟨[("prompt_tokens", g.prompt_tokens.getD .null),
        ("completion_tokens", g.completion_tokens.getD .null),
        ("total_tokens", .num nt)], ?_, ?_⟩
      · simp [gemini_raw_data, pyDictGet, hgu, ht, List.lookup]
      · simp [List.lookup]

/-- C9 witness: the sample Perplexity body printed and dumped with counts
5/6/7, and a completed Gemini interaction with total count 33. -/
theorem usage_roundtrip_witness :
    (∃ tr, run_perplexity_research ("TS") (.success (.obj sampleFields)) =
        .ok tr (some (.obj sampleFields)) ∧
      ("  - Prompt tokens: " ++ toString (5 : Int)) ∈ tr.prints ∧
      ("  - Completion tokens: " ++ toString (6 : Int)) ∈ tr.prints ∧
      ("  - Search queries: " ++ toString (7 : Int)) ∈ tr.prints ∧
      ("perplexity_full_response.json",
        ArtifactContent.jsonDump (.obj sampleFields)) ∈ tr.writes ∧
      (∃ akvs, pyDictGet (.obj sampleFields) ("usage") (.obj []) = some (.obj akvs) ∧
        akvs.lookup ("prompt_tokens") = some (.num 5) ∧
        akvs.lookup ("completion_tokens") = some (.num 6) ∧
        akvs.lookup ("num_search_queries") = some (.num 7))) ∧
    (∃ tr2, run_gemini_research ("TS") .available (.ok usageInteraction)
        (fun _ => usageInteraction) (fun _ => 0) 1 = .ok tr2 (some usageInteraction) ∧
      ("  - Total tokens: " ++ toString (33 : Int)) ∈ tr2.prints ∧
      ("gemini_full_response.json",
        ArtifactContent.jsonDump (gemini_raw_data usageInteraction)) ∈ tr2.writes ∧
      (∃ gkvs, pyDictGet (gemini_raw_data usageInteraction) ("usage") (.obj []) =
          some (.obj gkvs) ∧
        gkvs.lookup ("total_tokens") = some (.num 33))) :=
  usage_roundtrip ("TS") sampleFields sampleUsage 5 6 7 rfl rfl rfl rfl rfl rfl
    ("TS") usageInteraction (fun _ => usageInteraction) (fun _ => 0) 1 sampleGUsage 33
    (by omega) rfl rfl rfl

end DeepResearch
